import Mathlib

/-!
Verification of `util/network-devp2p/src/disk.rs` (OpenEthereum): a generic
save/load pair persisting a single entity to a file inside a directory, with
a `Secret` (hex-encoded 32-byte scalar, file name `key`) as the concrete
instance.

The filesystem is embedded as explicit state (`FS`): a list of existing
directories and an association list from file paths to file data (contents
and POSIX permission mode).  I/O failures are injected through an environment
(`FSEnv`) naming the outcome of each primitive call made by `save`/`load`.
Diagnostics are modelled as a list of `(Severity, message)` pairs built from
the same format strings the source uses.
-/

namespace Disk

/-- Log severity: the source logs with `debug!` or `warn!`. -/
inductive Severity where
  | debug
  | warn
deriving DecidableEq

/-- A regular file: its textual contents and its POSIX permission mode. -/
structure FileData where
  contents : String
  mode : Nat
deriving DecidableEq

/-- Filesystem state: the set of existing directories and the existing
regular files (path, data). -/
structure FS where
  dirs : List String
  files : List (String × FileData)
deriving DecidableEq

/-- Outcome of each filesystem primitive the code calls.  `none` / `.ok`
means the call succeeds; `some e` / `.error e` means it fails with error
text `e`.  `writeRes = .ok n` means the single `write` call reports `n`
bytes written (the source never checks `n`).  `defaultMode` is the mode a
newly created file gets before any permission restriction (umask
dependent). -/
structure FSEnv where
  createDirRes : Option String
  createFileRes : Option String
  chmodRes : Option String
  writeRes : Except String Nat
  openRes : Option String
  readRes : Option String
  defaultMode : Nat

/-- `path_buf.push(FILENAME)`: the file lives at `dir/FILENAME`. -/
def filePath (dir fname : String) : String := dir ++ "/" ++ fname

/-- `fs::create_dir_all`: ensure the directory exists. -/
def addDir (dirs : List String) (d : String) : List String :=
  if d ∈ dirs then dirs else d :: dirs

/-- Look up a file by path (first match in the association list). -/
def findFile (l : List (String × FileData)) (p : String) : Option FileData :=
  match l with
  | [] => none
  | e :: t => if e.1 = p then some e.2 else findFile t p

/-- Apply `f` to the data of every entry whose path is `p`. -/
def mapFile (l : List (String × FileData)) (p : String) (f : FileData → FileData) :
    List (String × FileData) :=
  l.map fun e => if e.1 = p then (e.1, f e.2) else e

/-- Truncation: what `fs::File::create` does to an existing file's data. -/
def truncData (d : FileData) : FileData := ⟨"", d.mode⟩

/-- `fs::File::create`: truncate the file if it exists (its mode is kept),
otherwise create it empty with the default mode. -/
def createFile (l : List (String × FileData)) (p : String) (defMode : Nat) :
    List (String × FileData) :=
  if p ∈ l.map Prod.fst then mapFile l p truncData
  else (p, ⟨"", defMode⟩) :: l

/-- Modelled from the spec: `parity_path::restrict_permissions_owner` is not
under `src/`.  The spec says the file is restricted to owner-only access
(read always, write and execute as given by the two boolean arguments; no
group or world bits), i.e. mode `0600` for the call `(path, true, false)`. -/
def restrict_permissions_owner (writable executable : Bool) : Nat :=
  0o400 + (if writable then 0o200 else 0) + (if executable then 0o100 else 0)

/-- Permission restriction: what `restrict_permissions_owner(path, true,
false)` does to a file's data. -/
def chmodData (d : FileData) : FileData :=
  ⟨d.contents, restrict_permissions_owner true false⟩

/-- Writing: what the single `file.write` call reporting `n` bytes written
does to a file's data, for the encoded representation `s`. -/
def writeData (s : List Char) (n : Nat) (d : FileData) : FileData :=
  ⟨⟨s.take n⟩, d.mode⟩

/-- The `DiskEntity` trait: an entity that can be persisted on disk. -/
structure DiskEntity (E : Type) where
  FILENAME : String
  DESCRIPTION : String
  to_repr : E → String
  from_repr : String → Except String E

/-- `save` from `disk.rs`: create the directory, create the file, restrict
its permissions (continuing on failure), write the representation.  Every
failure is logged and swallowed; nothing is returned to the caller beyond
the new filesystem state and the log. -/
def save {E : Type} (env : FSEnv) (D : DiskEntity E) (fs : FS) (path : String)
    (entity : E) : FS × List (Severity × String) :=
  match env.createDirRes with
  | some e => (fs, [(.warn, "Error creating " ++ D.DESCRIPTION ++ " directory: " ++ e)])
  | none =>
    let fs1 : FS := ⟨addDir fs.dirs path, fs.files⟩
    let p := filePath path D.FILENAME
    match env.createFileRes with
    | some e => (fs1, [(.warn, "Error creating " ++ D.DESCRIPTION ++ ": " ++ e)])
    | none =>
      let fs2 : FS := ⟨fs1.dirs, createFile fs1.files p env.defaultMode⟩
      let fs3 : FS :=
        match env.chmodRes with
        | some _ => fs2
        | none => ⟨fs2.dirs, mapFile fs2.files p chmodData⟩
      let logs1 : List (Severity × String) :=
        match env.chmodRes with
        | some e => [(.warn, "Failed to modify permissions of the file (" ++ e ++ ")")]
        | none => []
      match env.writeRes with
      | .error e => (fs3, logs1 ++ [(.warn, "Error writing " ++ D.DESCRIPTION ++ ": " ++ e)])
      | .ok n =>
        (⟨fs3.dirs, mapFile fs3.files p (writeData (D.to_repr entity).data n)⟩, logs1)

/-- `load` from `disk.rs`: open `dir/FILENAME` (debug-log and return `none`
if it cannot be opened), read it to a string (warn and return `none` on
failure), decode it (warn, including the cause, and return `none` on
failure). -/
def load {E : Type} (env : FSEnv) (D : DiskEntity E) (fs : FS) (path : String) :
    Option E × List (Severity × String) :=
  let p := filePath path D.FILENAME
  match findFile fs.files p with
  | none =>
    (none, [(.debug, "Error opening " ++ D.DESCRIPTION ++ ": No such file or directory")])
  | some d =>
    match env.openRes with
    | some e => (none, [(.debug, "Error opening " ++ D.DESCRIPTION ++ ": " ++ e)])
    | none =>
      match env.readRes with
      | some e => (none, [(.warn, "Error reading " ++ D.DESCRIPTION ++ ": " ++ e)])
      | none =>
        match D.from_repr d.contents with
        | .ok k => (some k, [])
        | .error e => (none, [(.warn, "Error parsing " ++ D.DESCRIPTION ++ ": " ++ e)])

/-! ### The `Secret` entity (modelled from the spec) -/

/-- Modelled from the spec: `parity_crypto::publickey::Secret` is not under
`src/`.  The spec describes it as a 32-byte scalar whose on-disk form is its
hexadecimal string encoding. -/
def Secret : Type := { l : List Nat // l.length = 32 ∧ ∀ b ∈ l, b < 256 }

instance : DecidableEq Secret :=
  fun a b => decidable_of_iff (a.val = b.val) Subtype.ext_iff.symm

/-- Lowercase hex digit for a nibble. -/
def to_hex_digit (n : Nat) : Char :=
  if n < 10 then Char.ofNat (48 + n) else Char.ofNat (87 + n)

/-- Two lowercase hex digits for a byte. -/
def byte_to_hex (b : Nat) : List Char := [to_hex_digit (b / 16), to_hex_digit (b % 16)]

/-- Lowercase hex encoding of a byte string (the `Secret::to_hex` of the
source, modelled from the spec). -/
def to_hex (l : List Nat) : List Char := (l.map byte_to_hex).flatten

/-- Parse one hex digit (either case). -/
def from_hex_digit (c : Char) : Option Nat :=
  if 48 ≤ c.toNat ∧ c.toNat ≤ 57 then some (c.toNat - 48)
  else if 97 ≤ c.toNat ∧ c.toNat ≤ 102 then some (c.toNat - 87)
  else if 65 ≤ c.toNat ∧ c.toNat ≤ 70 then some (c.toNat - 55)
  else none

/-- Parse a hex string into bytes; fails on odd length or a non-hex digit. -/
def from_hex : List Char → Option (List Nat)
  | [] => some []
  | [_] => none
  | c1 :: c2 :: rest =>
    match from_hex_digit c1, from_hex_digit c2, from_hex rest with
    | some hi, some lo, some tl => some ((16 * hi + lo) :: tl)
    | _, _, _ => none

/-- `Secret::to_repr` = `self.to_hex()`. -/
def secretToRepr (s : Secret) : String := ⟨to_hex s.val⟩

/-- `Secret::from_repr` = `s.parse()`: decode the hex string and require
exactly 32 bytes. -/
def secretFromRepr (str : String) : Except String Secret :=
  match from_hex str.data with
  | none => .error "invalid hex character or length"
  | some bs =>
    if h : bs.length = 32 ∧ ∀ b ∈ bs, b < 256 then .ok ⟨bs, h⟩
    else .error "invalid length"

/-- The `impl DiskEntity for Secret` from the source. -/
def secretEntity : DiskEntity Secret :=
  ⟨"key", "key file", secretToRepr, secretFromRepr⟩

/-- The all-zero secret, used as a concrete sample value. -/
def zeroSecret : Secret := ⟨List.replicate 32 0, by decide⟩

/-! ### Association-list lemmas -/

theorem findFile_cons (e : String × FileData) (t : List (String × FileData))
    (p : String) :
    findFile (e :: t) p = if e.1 = p then some e.2 else findFile t p := rfl

theorem mapFile_cons (e : String × FileData) (t : List (String × FileData))
    (p : String) (f : FileData → FileData) :
    mapFile (e :: t) p f = (if e.1 = p then (e.1, f e.2) else e) :: mapFile t p f := by
  unfold mapFile
  rw [List.map_cons]

theorem mapFile_cons_self (p : String) (d : FileData) (t : List (String × FileData))
    (f : FileData → FileData) :
    mapFile ((p, d) :: t) p f = (p, f d) :: mapFile t p f := by
  simp [mapFile_cons]

theorem findFile_mapFile (l : List (String × FileData)) (p : String)
    (f : FileData → FileData) :
    findFile (mapFile l p f) p = (findFile l p).map f := by
  induction l with
  | nil => rfl
  | cons e t ih =>
    by_cases h : e.1 = p <;> simp [mapFile_cons, findFile_cons, h, ih]

theorem mapFile_of_not_mem (l : List (String × FileData)) (p : String)
    (f : FileData → FileData) (h : p ∉ l.map Prod.fst) : mapFile l p f = l := by
  induction l with
  | nil => rfl
  | cons e t ih =>
    simp only [List.map_cons, List.mem_cons, not_or] at h
    have he : e.1 ≠ p := fun hh => h.1 hh.symm
    rw [mapFile_cons, if_neg he, ih h.2]

theorem mapFile_mapFile (l : List (String × FileData)) (p : String)
    (f g : FileData → FileData) :
    mapFile (mapFile l p f) p g = mapFile l p fun d => g (f d) := by
  induction l with
  | nil => rfl
  | cons e t ih =>
    by_cases h : e.1 = p <;> simp [mapFile_cons, h, ih]

theorem mapFile_keys (l : List (String × FileData)) (p : String)
    (f : FileData → FileData) : (mapFile l p f).map Prod.fst = l.map Prod.fst := by
  induction l with
  | nil => rfl
  | cons e t ih =>
    by_cases h : e.1 = p <;> simp [mapFile_cons, h, ih]

theorem mapFile_congr_on (l : List (String × FileData)) (p : String)
    (f g : FileData → FileData)
    (h : ∀ pr ∈ l, pr.1 = p → f pr.2 = g pr.2) :
    mapFile l p f = mapFile l p g := by
  induction l with
  | nil => rfl
  | cons e t ih =>
    have ht : mapFile t p f = mapFile t p g :=
      ih fun pr hpr hp => h pr (List.mem_cons_of_mem e hpr) hp
    by_cases he : e.1 = p
    · rw [mapFile_cons, mapFile_cons, if_pos he, if_pos he, ht,
        h e (List.mem_cons_self e t) he]
    · rw [mapFile_cons, mapFile_cons, if_neg he, if_neg he, ht]

theorem mapFile_id_on (l : List (String × FileData)) (p : String)
    (f : FileData → FileData)
    (h : ∀ pr ∈ l, pr.1 = p → f pr.2 = pr.2) : mapFile l p f = l := by
  induction l with
  | nil => rfl
  | cons e t ih =>
    have ht : mapFile t p f = t :=
      ih fun pr hpr hp => h pr (List.mem_cons_of_mem e hpr) hp
    by_cases he : e.1 = p
    · rw [mapFile_cons, if_pos he, ht, h e (List.mem_cons_self e t) he]
    · rw [mapFile_cons, if_neg he, ht]

theorem createFile_keys_mem (l : List (String × FileData)) (p : String) (m : Nat) :
    p ∈ (createFile l p m).map Prod.fst := by
  unfold createFile
  split
  · rwa [mapFile_keys]
  · simp

theorem findFile_isSome_of_mem (l : List (String × FileData)) (p : String)
    (h : p ∈ l.map Prod.fst) : ∃ d, findFile l p = some d := by
  induction l with
  | nil => simp at h
  | cons e t ih =>
    by_cases he : e.1 = p
    · exact ⟨e.2, by rw [findFile_cons, if_pos he]⟩
    · simp only [List.map_cons, List.mem_cons] at h
      rcases h with h | h
      · exact absurd h.symm he
      · rcases ih h with ⟨d, hd⟩
        exact ⟨d, by rw [findFile_cons, if_neg he, hd]⟩

theorem findFile_createFile (l : List (String × FileData)) (p : String) (m : Nat) :
    ∃ mo, findFile (createFile l p m) p = some ⟨"", mo⟩ := by
  unfold createFile
  split
  · rename_i hmem
    rw [findFile_mapFile]
    rcases findFile_isSome_of_mem l p hmem with ⟨d, hd⟩
    exact ⟨d.mode, by rw [hd]; rfl⟩
  · exact ⟨m, by rw [findFile_cons, if_pos rfl]⟩

theorem createFile_of_mem (l : List (String × FileData)) (p : String) (m : Nat)
    (h : p ∈ l.map Prod.fst) : createFile l p m = mapFile l p truncData := by
  unfold createFile
  rw [if_pos h]

theorem createFile_contents (l : List (String × FileData)) (p : String) (m : Nat) :
    ∀ pr ∈ createFile l p m, pr.1 = p → pr.2.contents = "" := by
  unfold createFile
  split
  · intro pr hpr hp
    rcases List.mem_map.1 hpr with ⟨e, _, heq⟩
    by_cases h : e.1 = p
    · rw [if_pos h] at heq
      rw [← heq]
      rfl
    · rw [if_neg h] at heq
      rw [← heq] at hp
      exact absurd hp h
  · rename_i hmem
    intro pr hpr hp
    rcases List.mem_cons.1 hpr with h1 | h1
    · rw [h1]
    · exact absurd (hp ▸ List.mem_map_of_mem Prod.fst h1) hmem

theorem createFile_of_not_mem (l : List (String × FileData)) (p : String) (m : Nat)
    (h : p ∉ l.map Prod.fst) : createFile l p m = (p, ⟨"", m⟩) :: l := by
  unfold createFile
  rw [if_neg h]

theorem addDir_idem (l : List String) (d : String) :
    addDir (addDir l d) d = addDir l d := by
  by_cases h : d ∈ l <;> simp [addDir, h]

/-! ### Hex round-trip -/

/-- The sixteen lowercase hexadecimal digit characters. -/
def lowercaseHexDigits : List Char := "0123456789abcdef".data

theorem from_hex_digit_to_hex_digit :
    ∀ n < 16, from_hex_digit (to_hex_digit n) = some n := by decide

theorem to_hex_digit_mem_lowercase :
    ∀ n < 16, to_hex_digit n ∈ lowercaseHexDigits := by decide

theorem to_hex_cons (b : Nat) (t : List Nat) :
    to_hex (b :: t) = to_hex_digit (b / 16) :: to_hex_digit (b % 16) :: to_hex t := by
  simp [to_hex, byte_to_hex]

theorem to_hex_length (l : List Nat) : (to_hex l).length = 2 * l.length := by
  induction l with
  | nil => rfl
  | cons b t ih =>
    rw [to_hex_cons]
    simp only [List.length_cons, ih, List.length_cons]
    omega

theorem from_hex_to_hex (l : List Nat) (h : ∀ b ∈ l, b < 256) :
    from_hex (to_hex l) = some l := by
  induction l with
  | nil => rfl
  | cons b t ih =>
    have hb : b < 256 := h b (List.mem_cons_self b t)
    have hhi : b / 16 < 16 := Nat.div_lt_of_lt_mul (by omega)
    have hlo : b % 16 < 16 := Nat.mod_lt b (by omega)
    have ht := ih fun x hx => h x (List.mem_cons_of_mem b hx)
    rw [to_hex_cons]
    simp only [from_hex, from_hex_digit_to_hex_digit _ hhi,
      from_hex_digit_to_hex_digit _ hlo, ht]
    rw [Nat.div_add_mod]

theorem to_hex_mem_lowercase (l : List Nat) (h : ∀ b ∈ l, b < 256) :
    ∀ c ∈ to_hex l, c ∈ lowercaseHexDigits := by
  induction l with
  | nil =>
    intro c hc
    simp [to_hex] at hc
  | cons b t ih =>
    intro c hc
    have hb : b < 256 := h b (List.mem_cons_self b t)
    rw [to_hex_cons] at hc
    rcases List.mem_cons.1 hc with h1 | h1
    · exact h1 ▸ to_hex_digit_mem_lowercase (b / 16) (Nat.div_lt_of_lt_mul (by omega))
    · rcases List.mem_cons.1 h1 with h2 | h2
      · exact h2 ▸ to_hex_digit_mem_lowercase (b % 16) (by omega)
      · exact ih (fun x hx => h x (List.mem_cons_of_mem b hx)) c h2

theorem secret_to_repr_length (s : Secret) : (secretToRepr s).data.length = 64 := by
  obtain ⟨l, hlen, hlt⟩ := s
  show (to_hex l).length = 64
  rw [to_hex_length, hlen]

theorem secret_round_trip (s : Secret) :
    secretFromRepr (secretToRepr s) = .ok s := by
  obtain ⟨l, hl⟩ := s
  unfold secretFromRepr
  rw [show (secretToRepr ⟨l, hl⟩).data = to_hex l from rfl, from_hex_to_hex l hl.2]
  exact dif_pos hl

/-! ### Sample environments and values for concrete instantiations -/

/-- An environment in which every filesystem primitive succeeds and the
single write reports 64 bytes written. -/
def envAllOk : FSEnv := ⟨none, none, none, .ok 64, none, none, 0o644⟩

/-! ### Claim theorems -/

/-- C2: `load(dir)` returns `Some(v)` if and only if the file
`dir/FILE_NAME` can be opened, its entire contents read as text, and that
text decoded successfully to `v`; in every other case it returns `none`
(and, being a total function into `Option`, it never returns a partially
constructed entity and never raises a fault). -/
theorem load_some_iff {E : Type} (env : FSEnv) (D : DiskEntity E) (fs : FS)
    (path : String) (v : E) :
    (load env D fs path).1 = some v ↔
      ∃ d, findFile fs.files (filePath path D.FILENAME) = some d ∧
        env.openRes = none ∧ env.readRes = none ∧ D.from_repr d.contents = .ok v := by
  unfold load
  rcases hf : findFile fs.files (filePath path D.FILENAME) with _ | d
  · simp [hf]
  · rcases ho : env.openRes with _ | e
    · rcases hr : env.readRes with _ | e
      · rcases hd : D.from_repr d.contents with e | k
        · simp [hf, ho, hr, hd]
        · simp [hf, ho, hr, hd, eq_comm]
      · simp [hf, ho, hr]
    · simp [hf, ho]

/-- C3: on a directory whose target file is missing (or cannot be opened),
`load` returns the absence marker, not an error, and its single log entry
is at debug severity. -/
theorem load_absent_debug {E : Type} (env : FSEnv) (D : DiskEntity E) (fs : FS)
    (path : String)
    (h : findFile fs.files (filePath path D.FILENAME) = none ∨
      ∃ e, env.openRes = some e) :
    (load env D fs path).1 = none ∧
      ∃ msg, (load env D fs path).2 = [(Severity.debug, msg)] := by
  unfold load
  rcases h with h | ⟨e, he⟩
  · simp [h]
  · rcases hf : findFile fs.files (filePath path D.FILENAME) with _ | d
    · simp [hf]
    · simp [hf, he]

/-- C3 witness: loading from an empty filesystem returns `none` with a
single debug log entry. -/
theorem load_absent_debug_witness :
    (load envAllOk secretEntity ⟨[], []⟩ "d").1 = none ∧
      ∃ msg, (load envAllOk secretEntity ⟨[], []⟩ "d").2 = [(Severity.debug, msg)] :=
  load_absent_debug envAllOk secretEntity ⟨[], []⟩ "d" (Or.inl rfl)

/-- C4: if the target file holds contents the entity's decoder rejects with
error `e`, `load` returns the absence marker and logs one warning whose
message includes the underlying decode error `e`. -/
theorem load_corrupt_warn {E : Type} (env : FSEnv) (D : DiskEntity E) (fs : FS)
    (path : String) (d : FileData) (e : String)
    (hf : findFile fs.files (filePath path D.FILENAME) = some d)
    (ho : env.openRes = none) (hr : env.readRes = none)
    (hd : D.from_repr d.contents = .error e) :
    (load env D fs path).1 = none ∧
      (load env D fs path).2 =
        [(Severity.warn, "Error parsing " ++ D.DESCRIPTION ++ ": " ++ e)] ∧
      ∃ pre, (load env D fs path).2 = [(Severity.warn, pre ++ e)] := by
  have h : load env D fs path =
      (none, [(Severity.warn, "Error parsing " ++ D.DESCRIPTION ++ ": " ++ e)]) := by
    unfold load
    simp [hf, ho, hr, hd]
  rw [h]
  exact ⟨rfl, rfl, "Error parsing " ++ D.DESCRIPTION ++ ": ", rfl⟩

/-- C4 witness: a file holding the non-hex text `zz` makes `load` of a
`Secret` return `none` with a single warning naming the decode error. -/
theorem load_corrupt_warn_witness :
    (load envAllOk secretEntity ⟨["d"], [("d/key", ⟨"zz", 0o600⟩)]⟩ "d").1 = none ∧
      (load envAllOk secretEntity ⟨["d"], [("d/key", ⟨"zz", 0o600⟩)]⟩ "d").2 =
        [(Severity.warn, "Error parsing " ++ "key file" ++ ": " ++
          "invalid hex character or length")] ∧
      ∃ pre, (load envAllOk secretEntity ⟨["d"], [("d/key", ⟨"zz", 0o600⟩)]⟩ "d").2 =
        [(Severity.warn, pre ++ "invalid hex character or length")] :=
  load_corrupt_warn envAllOk secretEntity ⟨["d"], [("d/key", ⟨"zz", 0o600⟩)]⟩ "d"
    ⟨"zz", 0o600⟩ "invalid hex character or length" rfl rfl rfl rfl

/-- C5: if directory creation fails, `save` returns with the filesystem
unchanged (no file written); if file creation fails, `save` returns with the
file map unchanged (no permission change, no write).  In both cases exactly
one warning is logged, and no error value reaches the caller (`save` is a
total function returning only the new state and the log). -/
theorem save_early_fail {E : Type} (D : DiskEntity E) (env env2 : FSEnv) (fs : FS)
    (path : String) (v : E) (e e2 : String)
    (h1 : env.createDirRes = some e)
    (h2 : env2.createDirRes = none) (h3 : env2.createFileRes = some e2) :
    ((save env D fs path v).1 = fs ∧
      (save env D fs path v).2 =
        [(Severity.warn, "Error creating " ++ D.DESCRIPTION ++ " directory: " ++ e)]) ∧
    ((save env2 D fs path v).1.files = fs.files ∧
      (save env2 D fs path v).2 =
        [(Severity.warn, "Error creating " ++ D.DESCRIPTION ++ ": " ++ e2)]) := by
  constructor
  · unfold save
    simp [h1]
  · unfold save
    simp [h2, h3]

/-- C5 witness: concrete failing environments for both early-failure
branches of `save`. -/
theorem save_early_fail_witness :
    ((save ⟨some "EACCES", none, none, .ok 64, none, none, 0o644⟩ secretEntity
        ⟨[], []⟩ "d" zeroSecret).1 = ⟨[], []⟩ ∧
      (save ⟨some "EACCES", none, none, .ok 64, none, none, 0o644⟩ secretEntity
        ⟨[], []⟩ "d" zeroSecret).2 =
        [(Severity.warn, "Error creating " ++ "key file" ++ " directory: " ++ "EACCES")]) ∧
    ((save ⟨none, some "EROFS", none, .ok 64, none, none, 0o644⟩ secretEntity
        ⟨[], []⟩ "d" zeroSecret).1.files = (⟨[], []⟩ : FS).files ∧
      (save ⟨none, some "EROFS", none, .ok 64, none, none, 0o644⟩ secretEntity
        ⟨[], []⟩ "d" zeroSecret).2 =
        [(Severity.warn, "Error creating " ++ "key file" ++ ": " ++ "EROFS")]) :=
  save_early_fail secretEntity ⟨some "EACCES", none, none, .ok 64, none, none, 0o644⟩
    ⟨none, some "EROFS", none, .ok 64, none, none, 0o644⟩ ⟨[], []⟩ "d" zeroSecret
    "EACCES" "EROFS" rfl rfl rfl

/-- C6: when file creation succeeds but restricting permissions fails,
`save` does not abort: it logs the permission warning and still writes the
entity's encoding (the first `n` reported bytes of it) to the file. -/
theorem save_chmod_fail_continues {E : Type} (env : FSEnv) (D : DiskEntity E)
    (fs : FS) (path : String) (v : E) (e : String) (n : Nat)
    (h1 : env.createDirRes = none) (h2 : env.createFileRes = none)
    (h3 : env.chmodRes = some e) (h4 : env.writeRes = .ok n) :
    (∃ d, findFile (save env D fs path v).1.files (filePath path D.FILENAME) = some d ∧
      d.contents = ⟨(D.to_repr v).data.take n⟩) ∧
    (Severity.warn, "Failed to modify permissions of the file (" ++ e ++ ")")
      ∈ (save env D fs path v).2 := by
  unfold save
  simp only [h1, h2, h3, h4]
  constructor
  · rcases findFile_createFile fs.files (filePath path D.FILENAME) env.defaultMode
      with ⟨mo, hmo⟩
    refine ⟨⟨⟨(D.to_repr v).data.take n⟩, mo⟩, ?_, rfl⟩
    rw [findFile_mapFile, hmo]
    rfl
  · simp

/-- C6 witness: a concrete save with failing permission restriction still
writes the hex encoding and logs the permission warning. -/
theorem save_chmod_fail_continues_witness :
    (∃ d, findFile (save ⟨none, none, some "EPERM", .ok 64, none, none, 0o644⟩
        secretEntity ⟨[], []⟩ "d" zeroSecret).1.files
        (filePath "d" secretEntity.FILENAME) = some d ∧
      d.contents = ⟨(secretEntity.to_repr zeroSecret).data.take 64⟩) ∧
    (Severity.warn, "Failed to modify permissions of the file (" ++ "EPERM" ++ ")")
      ∈ (save ⟨none, none, some "EPERM", .ok 64, none, none, 0o644⟩ secretEntity
        ⟨[], []⟩ "d" zeroSecret).2 :=
  save_chmod_fail_continues ⟨none, none, some "EPERM", .ok 64, none, none, 0o644⟩
    secretEntity ⟨[], []⟩ "d" zeroSecret "EPERM" 64 rfl rfl rfl rfl

/-- C7: after a fully successful `save`, the file `dir/FILE_NAME` has mode
`0600`: read and write for the owning user only, no execute bit, no group
or world access. -/
theorem save_success_permissions {E : Type} (env : FSEnv) (D : DiskEntity E)
    (fs : FS) (path : String) (v : E) (n : Nat)
    (h1 : env.createDirRes = none) (h2 : env.createFileRes = none)
    (h3 : env.chmodRes = none) (h4 : env.writeRes = .ok n) :
    ∃ d, findFile (save env D fs path v).1.files (filePath path D.FILENAME) = some d ∧
      d.mode = restrict_permissions_owner true false ∧
      restrict_permissions_owner true false = 0o600 ∧
      d.mode % 8 = 0 ∧ d.mode / 8 % 8 = 0 ∧ d.mode / 64 % 8 = 6 := by
  unfold save
  simp only [h1, h2, h3, h4]
  rcases findFile_createFile fs.files (filePath path D.FILENAME) env.defaultMode
    with ⟨mo, hmo⟩
  refine ⟨⟨⟨(D.to_repr v).data.take n⟩, restrict_permissions_owner true false⟩, ?_,
    rfl, rfl, (by decide : restrict_permissions_owner true false % 8 = 0),
    (by decide : restrict_permissions_owner true false / 8 % 8 = 0),
    (by decide : restrict_permissions_owner true false / 64 % 8 = 6)⟩
  rw [findFile_mapFile, findFile_mapFile, hmo]
  rfl

/-- C7 witness: a fully successful concrete save leaves the `key` file with
mode `0600`. -/
theorem save_success_permissions_witness :
    ∃ d, findFile (save envAllOk secretEntity ⟨[], []⟩ "d" zeroSecret).1.files
        (filePath "d" secretEntity.FILENAME) = some d ∧
      d.mode = restrict_permissions_owner true false ∧
      restrict_permissions_owner true false = 0o600 ∧
      d.mode % 8 = 0 ∧ d.mode / 8 % 8 = 0 ∧ d.mode / 64 % 8 = 6 :=
  save_success_permissions envAllOk secretEntity ⟨[], []⟩ "d" zeroSecret 64
    rfl rfl rfl rfl

/-- C10: `save` is not atomic with respect to write failure.  Once file
creation has succeeded, a write error leaves the created, truncated (empty)
file on disk with no rollback, and only a log entry — no error value — is
produced; and a partial write of `n` bytes is reported by no log entry at
all (the byte count is never checked), leaving the first `n` bytes of the
encoding in the file. -/
theorem save_not_atomic {E : Type} (env : FSEnv) (D : DiskEntity E) (fs : FS)
    (path : String) (v : E)
    (h1 : env.createDirRes = none) (h2 : env.createFileRes = none)
    (h3 : env.chmodRes = none) :
    (∀ e, env.writeRes = .error e →
      (∃ d, findFile (save env D fs path v).1.files (filePath path D.FILENAME) =
          some d ∧ d.contents = "") ∧
      (save env D fs path v).2 =
        [(Severity.warn, "Error writing " ++ D.DESCRIPTION ++ ": " ++ e)]) ∧
    (∀ n, env.writeRes = .ok n →
      (∃ d, findFile (save env D fs path v).1.files (filePath path D.FILENAME) =
          some d ∧ d.contents = ⟨(D.to_repr v).data.take n⟩) ∧
      (save env D fs path v).2 = []) := by
  constructor
  · intro e he
    unfold save
    simp only [h1, h2, h3, he]
    rcases findFile_createFile fs.files (filePath path D.FILENAME) env.defaultMode
      with ⟨mo, hmo⟩
    refine ⟨⟨⟨"", restrict_permissions_owner true false⟩, ?_, rfl⟩, rfl⟩
    rw [findFile_mapFile, hmo]
    rfl
  · intro n hn
    unfold save
    simp only [h1, h2, h3, hn]
    rcases findFile_createFile fs.files (filePath path D.FILENAME) env.defaultMode
      with ⟨mo, hmo⟩
    refine ⟨⟨⟨⟨(D.to_repr v).data.take n⟩, restrict_permissions_owner true false⟩,
      ?_, rfl⟩, by trivial⟩
    rw [findFile_mapFile, findFile_mapFile, hmo]
    rfl

/-- C10 witness: with a failing write, the concrete save leaves an empty
`key` file behind and merely logs a warning. -/
theorem save_not_atomic_witness :
    (∀ e, (⟨none, none, none, .error "ENOSPC", none, none, 0o644⟩ : FSEnv).writeRes =
        .error e →
      (∃ d, findFile (save ⟨none, none, none, .error "ENOSPC", none, none, 0o644⟩
          secretEntity ⟨[], []⟩ "d" zeroSecret).1.files
          (filePath "d" secretEntity.FILENAME) = some d ∧ d.contents = "") ∧
      (save ⟨none, none, none, .error "ENOSPC", none, none, 0o644⟩ secretEntity
        ⟨[], []⟩ "d" zeroSecret).2 =
        [(Severity.warn, "Error writing " ++ secretEntity.DESCRIPTION ++ ": " ++ e)]) ∧
    (∀ n, (⟨none, none, none, .error "ENOSPC", none, none, 0o644⟩ : FSEnv).writeRes =
        .ok n →
      (∃ d, findFile (save ⟨none, none, none, .error "ENOSPC", none, none, 0o644⟩
          secretEntity ⟨[], []⟩ "d" zeroSecret).1.files
          (filePath "d" secretEntity.FILENAME) = some d ∧
        d.contents = ⟨(secretEntity.to_repr zeroSecret).data.take n⟩) ∧
      (save ⟨none, none, none, .error "ENOSPC", none, none, 0o644⟩ secretEntity
        ⟨[], []⟩ "d" zeroSecret).2 = []) :=
  save_not_atomic ⟨none, none, none, .error "ENOSPC", none, none, 0o644⟩ secretEntity
    ⟨[], []⟩ "d" zeroSecret rfl rfl rfl

/-- Helper: after a fully successful `save` (directory created, file
created, write reporting at least the encoding's length), the target file
holds exactly the entity's encoding. -/
theorem findFile_after_save_full {E : Type} (env : FSEnv) (D : DiskEntity E)
    (fs : FS) (path : String) (v : E) (n : Nat)
    (h1 : env.createDirRes = none) (h2 : env.createFileRes = none)
    (h4 : env.writeRes = .ok n) (h5 : (D.to_repr v).data.length ≤ n) :
    ∃ d, findFile (save env D fs path v).1.files (filePath path D.FILENAME) = some d ∧
      d.contents = D.to_repr v := by
  have htake : ((D.to_repr v).data.take n : List Char) = (D.to_repr v).data :=
    List.take_of_length_le h5
  have hmk : (⟨(D.to_repr v).data⟩ : String) = D.to_repr v := rfl
  unfold save
  rcases hc : env.chmodRes with _ | e
  · simp only [h1, h2, h4, hc]
    rcases findFile_createFile fs.files (filePath path D.FILENAME) env.defaultMode
      with ⟨mo, hmo⟩
    refine ⟨⟨⟨(D.to_repr v).data.take n⟩, restrict_permissions_owner true false⟩, ?_, ?_⟩
    · rw [findFile_mapFile, findFile_mapFile, hmo]
      rfl
    · show (⟨(D.to_repr v).data.take n⟩ : String) = D.to_repr v
      rw [htake]
  · simp only [h1, h2, h4, hc]
    rcases findFile_createFile fs.files (filePath path D.FILENAME) env.defaultMode
      with ⟨mo, hmo⟩
    refine ⟨⟨⟨(D.to_repr v).data.take n⟩, mo⟩, ?_, ?_⟩
    · rw [findFile_mapFile, hmo]
      rfl
    · show (⟨(D.to_repr v).data.take n⟩ : String) = D.to_repr v
      rw [htake]

/-- Helper: the generic round trip, shared by the generic and the concrete
round-trip theorems: a fully successful `save` followed by a `load` whose
open and read succeed returns the saved value, provided the entity's
decoder inverts its encoder on that value. -/
theorem load_after_save {E : Type} (env : FSEnv) (D : DiskEntity E) (fs : FS)
    (path : String) (v : E) (n : Nat)
    (h1 : env.createDirRes = none) (h2 : env.createFileRes = none)
    (h4 : env.writeRes = .ok n) (h5 : (D.to_repr v).data.length ≤ n)
    (h6 : env.openRes = none) (h7 : env.readRes = none)
    (hv : D.from_repr (D.to_repr v) = .ok v) :
    (load env D (save env D fs path v).1 path).1 = some v := by
  rcases findFile_after_save_full env D fs path v n h1 h2 h4 h5 with ⟨d, hd, hcon⟩
  unfold load
  simp [hd, h6, h7, hcon, hv]

/-- C1: for every valid entity value `v` (one the decoder maps back from
its encoding, `decode (encode v) = ok v`), if `save(dir, v)` succeeds fully
(directory created, file created, write complete) then a subsequent
`load(dir)` whose open and read succeed returns `some v`. -/
theorem save_load_round_trip {E : Type} (env : FSEnv) (D : DiskEntity E) (fs : FS)
    (path : String) (v : E) (n : Nat)
    (h1 : env.createDirRes = none) (h2 : env.createFileRes = none)
    (h4 : env.writeRes = .ok n) (h5 : (D.to_repr v).data.length ≤ n)
    (h6 : env.openRes = none) (h7 : env.readRes = none)
    (hv : D.from_repr (D.to_repr v) = .ok v) :
    (load env D (save env D fs path v).1 path).1 = some v :=
  load_after_save env D fs path v n h1 h2 h4 h5 h6 h7 hv

/-- C1 witness: the concrete round trip for the all-zero secret on an empty
filesystem. -/
theorem save_load_round_trip_witness :
    (load envAllOk secretEntity
      (save envAllOk secretEntity ⟨[], []⟩ "d" zeroSecret).1 "d").1 = some zeroSecret :=
  save_load_round_trip envAllOk secretEntity ⟨[], []⟩ "d" zeroSecret 64 rfl rfl rfl
    (by rw [show secretEntity.to_repr zeroSecret = secretToRepr zeroSecret from rfl,
      secret_to_repr_length]) rfl rfl (secret_round_trip zeroSecret)

/-- C8: for the concrete `Secret` entity, a fully successful
`save(dir, secret)` on a filesystem with no file at `dir/key` produces
exactly one new file, named `key` under `dir`, whose contents are the
lowercase hexadecimal encoding of the secret, and `load(dir)` returns the
original secret. -/
theorem secret_save_load {env : FSEnv} (fs : FS) (path : String) (s : Secret)
    (n : Nat)
    (h1 : env.createDirRes = none) (h2 : env.createFileRes = none)
    (h3 : env.chmodRes = none) (h4 : env.writeRes = .ok n) (h5 : 64 ≤ n)
    (h6 : env.openRes = none) (h7 : env.readRes = none)
    (h8 : filePath path "key" ∉ fs.files.map Prod.fst) :
    (save env secretEntity fs path s).1.files =
      (filePath path "key", ⟨secretEntity.to_repr s, 0o600⟩) :: fs.files ∧
    (∀ c ∈ (secretEntity.to_repr s).data, c ∈ lowercaseHexDigits) ∧
    (load env secretEntity (save env secretEntity fs path s).1 path).1 = some s := by
  have hlen : (secretEntity.to_repr s).data.length = 64 := secret_to_repr_length s
  have htake : ((secretEntity.to_repr s).data.take n : List Char) =
      (secretEntity.to_repr s).data :=
    List.take_of_length_le (by rw [hlen]; exact h5)
  have hC := mapFile_of_not_mem fs.files (filePath path "key") chmodData h8
  have hW := mapFile_of_not_mem fs.files (filePath path "key")
    (writeData (secretEntity.to_repr s).data n) h8
  refine ⟨?_, ?_, ?_⟩
  · unfold save
    simp only [h1, h2, h3, h4]
    rw [show filePath path secretEntity.FILENAME = filePath path "key" from rfl,
      createFile_of_not_mem fs.files (filePath path "key") env.defaultMode h8,
      mapFile_cons_self, hC, mapFile_cons_self, hW]
    show ((filePath path "key", (⟨⟨(secretEntity.to_repr s).data.take n⟩,
      restrict_permissions_owner true false⟩ : FileData)) :: fs.files) = _
    rw [htake]
    rfl
  · intro c hc
    exact to_hex_mem_lowercase s.val s.prop.2 c hc
  · exact load_after_save env secretEntity fs path s n h1 h2 h4
      (by rw [hlen]; exact h5) h6 h7 (secret_round_trip s)

/-- C8 witness: the concrete scenario for the all-zero secret. -/
theorem secret_save_load_witness :
    (save envAllOk secretEntity ⟨[], []⟩ "d" zeroSecret).1.files =
      (filePath "d" "key", ⟨secretEntity.to_repr zeroSecret, 0o600⟩) ::
        ([] : List (String × FileData)) ∧
    (∀ c ∈ (secretEntity.to_repr zeroSecret).data, c ∈ lowercaseHexDigits) ∧
    (load envAllOk secretEntity
      (save envAllOk secretEntity ⟨[], []⟩ "d" zeroSecret).1 "d").1 = some zeroSecret :=
  secret_save_load ⟨[], []⟩ "d" zeroSecret 64 rfl rfl rfl rfl (by decide) rfl rfl
    (by simp)

/-- C9: calling `save` twice in succession with the same value, under the
same primitive outcomes, leaves the filesystem — in particular the file
contents — identical to after the first call, and `load` returns the same
result (value and log) after the second call as after the first. -/
theorem save_idempotent {E : Type} (env : FSEnv) (D : DiskEntity E) (fs : FS)
    (path : String) (v : E) :
    (save env D (save env D fs path v).1 path v).1 = (save env D fs path v).1 ∧
    load env D (save env D (save env D fs path v).1 path v).1 path =
      load env D (save env D fs path v).1 path := by
  have hmain : (save env D (save env D fs path v).1 path v).1 =
      (save env D fs path v).1 := by
    rcases hcd : env.createDirRes with _ | e
    · rcases hcf : env.createFileRes with _ | e
      · rcases hcm : env.chmodRes with _ | ce <;> rcases hw : env.writeRes with we | wn
        · -- chmod succeeds, write fails
          simp only [save, hcd, hcf, hcm, hw]
          have hkeys : filePath path D.FILENAME ∈
              (mapFile (createFile fs.files (filePath path D.FILENAME) env.defaultMode)
                (filePath path D.FILENAME) chmodData).map Prod.fst := by
            rw [mapFile_keys]
            exact createFile_keys_mem _ _ _
          rw [createFile_of_mem _ _ _ hkeys, mapFile_mapFile, mapFile_mapFile,
            FS.mk.injEq]
          refine ⟨addDir_idem _ _, ?_⟩
          apply mapFile_congr_on
          intro pr hpr hp
          have hc := createFile_contents fs.files (filePath path D.FILENAME)
            env.defaultMode pr hpr hp
          show (⟨"", restrict_permissions_owner true false⟩ : FileData) =
            ⟨pr.2.contents, restrict_permissions_owner true false⟩
          rw [hc]
        · -- chmod succeeds, write succeeds
          simp only [save, hcd, hcf, hcm, hw]
          have hkeys : filePath path D.FILENAME ∈
              (mapFile (mapFile (createFile fs.files (filePath path D.FILENAME)
                  env.defaultMode) (filePath path D.FILENAME) chmodData)
                (filePath path D.FILENAME)
                (writeData (D.to_repr v).data wn)).map Prod.fst := by
            rw [mapFile_keys, mapFile_keys]
            exact createFile_keys_mem _ _ _
          rw [createFile_of_mem _ _ _ hkeys, mapFile_mapFile, mapFile_mapFile,
            mapFile_mapFile, mapFile_mapFile, mapFile_mapFile, FS.mk.injEq]
          refine ⟨addDir_idem _ _, ?_⟩
          apply mapFile_congr_on
          intro pr hpr hp
          rfl
        · -- chmod fails, write fails
          simp only [save, hcd, hcf, hcm, hw]
          rw [createFile_of_mem _ _ _ (createFile_keys_mem _ _ _), FS.mk.injEq]
          refine ⟨addDir_idem _ _, ?_⟩
          apply mapFile_id_on
          intro pr hpr hp
          have hc := createFile_contents fs.files (filePath path D.FILENAME)
            env.defaultMode pr hpr hp
          show (⟨"", pr.2.mode⟩ : FileData) = pr.2
          rw [← hc]
        · -- chmod fails, write succeeds
          simp only [save, hcd, hcf, hcm, hw]
          have hkeys : filePath path D.FILENAME ∈
              (mapFile (createFile fs.files (filePath path D.FILENAME) env.defaultMode)
                (filePath path D.FILENAME)
                (writeData (D.to_repr v).data wn)).map Prod.fst := by
            rw [mapFile_keys]
            exact createFile_keys_mem _ _ _
          rw [createFile_of_mem _ _ _ hkeys, mapFile_mapFile, mapFile_mapFile,
            FS.mk.injEq]
          refine ⟨addDir_idem _ _, ?_⟩
          apply mapFile_congr_on
          intro pr hpr hp
          rfl
      · simp only [save, hcd, hcf, FS.mk.injEq]
        exact ⟨addDir_idem _ _, trivial⟩
    · simp [save, hcd]
  exact ⟨hmain, by rw [hmain]⟩

end Disk
